import Mathlib

/-!
Shallow embedding of the macOS (Cocoa) backend of the systray library
(`src/api/cocoa/mod.rs`) together with the Application Facade contract,
and theorems settling the specification claims about it.

A Rust `unimplemented!()` or a failed `unwrap()` aborts the call with an
uncatchable panic; the embedding records that outcome explicitly as
`Outcome.fault`, distinct from a typed `Err` return and from `Ok`.
-/

namespace Systray

/-- The library's single flat error kind, `Error::OsError(description)`. -/
inductive Error where
  | OsError (description : String)
deriving DecidableEq, Repr

/-- Result of calling a backend operation.  `ok` and `err` are the two arms of
Rust `Result`; `fault` marks an uncatchable panic (`unimplemented!()` or a
failed `unwrap()`), which is not a return value at all. -/
inductive Outcome (α : Type) where
  | ok (value : α)
  | err (e : Error)
  | fault
deriving DecidableEq, Repr

/-- `OsxSystemTrayEvent` from `src/api/cocoa/mod.rs`: the event type carried by
the internal channel to the listener thread.  The image buffer is a borrowed
byte slice, modelled as a list of bytes (as naturals). -/
inductive OsxSystemTrayEvent where
  | ChangeImage (image : List Nat)
  | Shutdown
deriving DecidableEq, Repr

/-- `const ICON_WIDTH: f64 = 32.0` — the value is an exact small integer. -/
def ICON_WIDTH : Nat := 32

/-- `const ICON_HEIGHT: f64 = 32.0`. -/
def ICON_HEIGHT : Nat := 32

/-- `SafeId(Arc<Mutex<*mut Object>>)`: a handle holding the address of a
reference-counted shared cell; the cell contains the wrapped raw pointer.
Distinct handles that hold the same `cell` address alias one `Arc` allocation. -/
structure SafeId where
  cell : Nat
deriving DecidableEq, Repr

/-- A store assigning to every shared-cell address the wrapped pointer value
currently held in that cell. -/
def Store : Type := Nat → Int

/-- `#[derive(Clone)]` on `SafeId` clones the inner `Arc`: the clone bumps the
reference count and yields a handle to the same allocation (same cell). -/
def SafeId.clone (s : SafeId) : SafeId := ⟨s.cell⟩

/-- Locking the handle's mutex and reading the wrapped pointer
(`self.0.lock().unwrap()` dereferenced). -/
def SafeId.lockDeref (s : SafeId) (σ : Store) : Int := σ s.cell

/-- The mpsc channel carrying `OsxSystemTrayEvent`s from producer threads to
the listener thread: an unbounded FIFO queue plus the liveness of the
receiving end. -/
structure Channel where
  queue : List OsxSystemTrayEvent
  consumerAlive : Bool
deriving DecidableEq, Repr

/-- `Sender::send`: appends to the unbounded queue without blocking; it fails
only when the receiver has been dropped. -/
def Channel.send (c : Channel) (e : OsxSystemTrayEvent) : Option Channel :=
  if c.consumerAlive then some { c with queue := c.queue ++ [e] } else none

namespace Window

/-- `Window::set_tooltip(&self, _: &str)`: unconditionally returns
`Err(Error::OsError(...))` with this description (the Rust source writes the
string with a line-continuation backslash, so it is one space-separated line). -/
def tooltipErrorMessage : String :=
  "This operating system does not support tooltips for the tray items"

/-- `Window::set_tooltip`: ignores its argument and returns the typed error. -/
def set_tooltip (_text : String) : Outcome Unit :=
  .err (.OsError tooltipErrorMessage)

/-- `Window::set_icon_from_resource`: body is `unimplemented!()`, a panic. -/
def set_icon_from_resource (_resource_name : String) : Outcome Unit := .fault

/-- `Window::set_icon_from_file`: body is `unimplemented!()`, a panic. -/
def set_icon_from_file (_icon_file : String) : Outcome Unit := .fault

/-- `Window::add_menu_separator(item_idx)`: body is `unimplemented!()`. -/
def add_menu_separator (_item_idx : Nat) : Outcome Unit := .fault

/-- `Window::add_menu_entry(item_idx, item_name)`: body is `unimplemented!()`. -/
def add_menu_entry (_item_idx : Nat) (_item_name : String) : Outcome Unit := .fault

/-- `Window::shutdown`: returns `Ok(())` without doing anything. -/
def shutdown : Outcome Unit := .ok ()

/-- `Window::quit`: the terminating `msg_send![app, terminate]` is commented
out; the body is `unimplemented!()`, a panic. -/
def quit : Outcome Unit := .fault

/-- `Window::set_icon_from_buffer(buffer, _w, _h)`: ignores the width and
height parameters, sends `ChangeImage(buffer)` on the handler channel (the
`unwrap()` on the send panics if the receiver is gone) and returns `Ok(())`.
It touches no native UI object itself: its only effect is the enqueue. -/
def set_icon_from_buffer (c : Channel) (buffer : List Nat) (_w _h : Nat) :
    Outcome (Channel × Unit) :=
  match c.send (.ChangeImage buffer) with
  | some c1 => .ok (c1, ())
  | none => .fault

/-- State relevant to the event loop: whether `quit` has ever been invoked. -/
structure LoopState where
  quitInvoked : Bool
deriving DecidableEq, Repr

/-- `Window::wait_for_message`: spawns a detached thread that sleeps and logs
forever, then immediately returns `Ok(())`.  The returned value does not
consult the loop state at all. -/
def wait_for_message (_s : LoopState) : Except Unit Unit := .ok ()

end Window

/-- The native tray state mutated by the listener thread spawned by
`run_lister`, plus a log of the events it has finished processing, in order. -/
structure TrayState where
  image : Option (List Nat)
  imageSize : Option (Nat × Nat)
  log : List OsxSystemTrayEvent
deriving DecidableEq, Repr

/-- The tray before any event has been processed. -/
def trayInit : TrayState := ⟨none, none, []⟩

/-- One arm of the `match` inside `run_lister`'s loop.  `ChangeImage` builds an
`NSImage` from the bytes, sets its size to `ICON_WIDTH × ICON_HEIGHT` and
installs it on the tray button.  `Shutdown` is `unimplemented!()`: the listener
thread panics, modelled as `none`. -/
def processEvent (s : TrayState) (e : OsxSystemTrayEvent) : Option TrayState :=
  match e with
  | .ChangeImage image =>
      some { image := some image,
             imageSize := some (ICON_WIDTH, ICON_HEIGHT),
             log := s.log ++ [e] }
  | .Shutdown => none

/-- Draining `rx.try_iter()` inside `run_lister`: the queued events are handled
one at a time, in FIFO order; a panic while handling one event kills the
listener thread, so no later event is ever handled. -/
def drain (s : TrayState) : List OsxSystemTrayEvent → Option TrayState
  | [] => some s
  | e :: es =>
      match processEvent s e with
      | some s1 => drain s1 es
      | none => none

/-- Modelled from the spec: the Application Facade (`src/lib.rs`, absent from
the sources) "assigns the next unused non-negative integer id on every
successful `add_menu_item`, starting at 0 and incrementing", storing a flat
id-to-callback mapping. -/
structure Application where
  nextId : Nat
  registered : List Nat
deriving DecidableEq, Repr

/-- Modelled from the spec: a freshly constructed facade, before any
`add_menu_item` call; ids start at 0. -/
def Application.initial : Application := ⟨0, []⟩

/-- Modelled from the spec: a successful `add_menu_item` returns the current
next id and increments the counter, recording the id in the mapping. -/
def Application.add_menu_item (a : Application) (_label : String) :
    Nat × Application :=
  (a.nextId, ⟨a.nextId + 1, a.registered ++ [a.nextId]⟩)

/-- The ids returned by a sequence of successful `add_menu_item` calls,
together with the facade state they leave behind. -/
def Application.runAdds (a : Application) : List String → List Nat × Application
  | [] => ([], a)
  | l :: ls =>
      let p := a.add_menu_item l
      let q := p.2.runAdds ls
      (p.1 :: q.1, q.2)

theorem Application.runAdds_fst (ls : List String) : ∀ a : Application,
    (a.runAdds ls).1 = (List.range ls.length).map (a.nextId + ·) := by
  induction ls with
  | nil => intro a; simp [Application.runAdds]
  | cons l ls ih =>
      intro a
      simp only [Application.runAdds, Application.add_menu_item, ih,
        List.length_cons, List.range_succ_eq_map, List.map_cons, List.map_map,
        Nat.add_zero]
      congr 1
      apply List.map_congr_left
      intro i _
      simp only [Function.comp_apply]
      omega

/-- Claim C1 (code bug in the source): the claim says each of these operations
returns a typed `OsError` result.  In the code, `set_icon_from_resource`,
`set_icon_from_file`, `add_menu_separator` and `add_menu_entry` abort with an
uncatchable panic (`unimplemented!()`), and `shutdown` silently returns
`Ok(())` while doing nothing; none of the five ever returns an `OsError`. -/
theorem c1_stub_ops_fault_and_shutdown_silently_succeeds :
    Window.set_icon_from_resource "icon" = Outcome.fault ∧
    Window.set_icon_from_file "/tmp/rust.png" = Outcome.fault ∧
    Window.add_menu_separator 0 = Outcome.fault ∧
    Window.add_menu_entry 0 "entry" = Outcome.fault ∧
    Window.shutdown = Outcome.ok () ∧
    ∀ e : Error, Window.shutdown ≠ Outcome.err e := by
  refine ⟨rfl, rfl, rfl, rfl, rfl, ?_⟩
  intro e h
  exact Outcome.noConfusion h

/-- Claim C2 (code bug in the source): the claim (and the function's own doc
comment) says `wait_for_message` blocks until `quit` is invoked.  In the code
it spawns a detached logging thread and returns `Ok(())` at once: here it
returns in a state where no quit has ever occurred. -/
theorem c2_wait_for_message_returns_without_quit :
    Window.wait_for_message { quitInvoked := false } = Except.ok () := rfl

/-- Claim C3 (code bug in the source): the claim says `quit` is idempotent and
callable from a callback without deadlock.  In the code the very first call to
`quit` aborts with an uncatchable panic (`unimplemented!()`); it never
completes, so it has no well-defined effect on the Window state at all. -/
theorem c3_quit_faults : Window.quit = Outcome.fault := rfl

/-- Claim C4: for every input string, `set_tooltip` returns the typed
`OsError` ("not supported") result — never success, never a silent no-op,
never a panic. -/
theorem c4_set_tooltip_always_OsError (text : String) :
    Window.set_tooltip text =
      Outcome.err (Error.OsError Window.tooltipErrorMessage) ∧
    Window.set_tooltip text ≠ Outcome.ok () ∧
    Window.set_tooltip text ≠ Outcome.fault := by
  refine ⟨rfl, ?_, ?_⟩ <;> intro h <;> exact Outcome.noConfusion h

/-- Claim C5: while the consumer side of the channel is alive,
`set_icon_from_buffer` returns `Ok(())` and its only effect is to append one
`ChangeImage(buffer)` event to the channel queue; it performs no native-UI
mutation itself (the tray state is not even an input of the function), and the
modelled `send` is a total function on an unbounded queue — the producer is
never blocked. -/
theorem c5_set_icon_from_buffer_enqueues (c : Channel) (buffer : List Nat)
    (w h : Nat) (halive : c.consumerAlive = true) :
    Window.set_icon_from_buffer c buffer w h =
      Outcome.ok ({ queue := c.queue ++ [OsxSystemTrayEvent.ChangeImage buffer],
                    consumerAlive := true }, ()) := by
  simp [Window.set_icon_from_buffer, Channel.send, halive]

/-- Witness for C5: a concrete live channel, a concrete buffer and concrete
(ignored) dimensions. -/
theorem c5_witness :
    Window.set_icon_from_buffer ⟨[], true⟩ [0, 1, 2] 256 256 =
      Outcome.ok (⟨[OsxSystemTrayEvent.ChangeImage [0, 1, 2]], true⟩, ()) :=
  c5_set_icon_from_buffer_enqueues ⟨[], true⟩ [0, 1, 2] 256 256 rfl

/-- Claim C6 (code bug in the source): the claim says the consumer observes a
`Shutdown` event and unwinds to a Terminated state, after which operations
fail with an "already shut down" error.  In the code the `Shutdown` arm of
`run_lister` is `unimplemented!()`: handling the event panics the listener
thread from any tray state, and no Terminated state or "already shut down"
error exists anywhere in the backend. -/
theorem c6_shutdown_event_faults (s : TrayState) :
    processEvent s OsxSystemTrayEvent.Shutdown = none := rfl

/-- Claim C7 (spec-modelled facade): the ids returned by a sequence of
successful `add_menu_item` calls on one fresh application instance are exactly
`0, 1, ..., n-1` — starting at 0, incrementing by one per successful call,
strictly increasing and unique. -/
theorem c7_menu_ids_start_at_zero_increasing_unique (labels : List String) :
    (Application.initial.runAdds labels).1 = List.range labels.length ∧
    List.Pairwise (· < ·) (Application.initial.runAdds labels).1 ∧
    (Application.initial.runAdds labels).1.Nodup := by
  have h := Application.runAdds_fst labels Application.initial
  simp only [Application.initial, Nat.zero_add] at h
  rw [List.map_id'] at h
  exact ⟨h, h ▸ List.pairwise_lt_range _, h ▸ List.nodup_range _⟩

/-- Claim C8 counterexample: the claim as stated fails on the sequence
`[Shutdown, ChangeImage [1]]` sent by one producer — handling `Shutdown`
panics the listener thread, so the subsequent `ChangeImage` is never
processed and no final state with both events in its processing log exists. -/
theorem c8_counterexample :
    ¬ ∃ s1 : TrayState,
        drain trayInit [OsxSystemTrayEvent.Shutdown,
          OsxSystemTrayEvent.ChangeImage [1]] = some s1 ∧
        s1.log = [OsxSystemTrayEvent.Shutdown,
          OsxSystemTrayEvent.ChangeImage [1]] := by
  simp [drain, processEvent, trayInit]

/-- Claim C8 (amended): for every `Shutdown`-free sequence of events sent by a
single producer, the consumer loop processes each event exactly once, in the
order sent — the processing log extends by exactly that sequence. -/
theorem c8_fifo_exactly_once (es : List OsxSystemTrayEvent) : ∀ s : TrayState,
    OsxSystemTrayEvent.Shutdown ∉ es →
    ∃ s1 : TrayState, drain s es = some s1 ∧ s1.log = s.log ++ es := by
  induction es with
  | nil => exact fun s _ => ⟨s, rfl, by simp⟩
  | cons e es ih =>
      intro s hmem
      cases e with
      | Shutdown => exact absurd (List.mem_cons_self _ _) hmem
      | ChangeImage img =>
          obtain ⟨s1, hd, hl⟩ :=
            ih { image := some img,
                 imageSize := some (ICON_WIDTH, ICON_HEIGHT),
                 log := s.log ++ [OsxSystemTrayEvent.ChangeImage img] }
              (fun hin => hmem (List.mem_cons_of_mem _ hin))
          refine ⟨s1, ?_, ?_⟩
          · simpa [drain, processEvent] using hd
          · simp [hl]

/-- Witness for the amended C8: two concrete `ChangeImage` events are
processed exactly once each, in send order. -/
theorem c8_witness :
    ∃ s1 : TrayState,
      drain trayInit [OsxSystemTrayEvent.ChangeImage [1],
        OsxSystemTrayEvent.ChangeImage [2]] = some s1 ∧
      s1.log = trayInit.log ++ [OsxSystemTrayEvent.ChangeImage [1],
        OsxSystemTrayEvent.ChangeImage [2]] :=
  c8_fifo_exactly_once [OsxSystemTrayEvent.ChangeImage [1],
    OsxSystemTrayEvent.ChangeImage [2]] trayInit (by decide)

/-- Claim C9: `SafeId.clone` yields a handle referencing the same underlying
shared cell, so locking the original and locking the clone observe the
identical wrapped pointer value in any store. -/
theorem c9_clone_shares_wrapped_object (s : SafeId) (σ : Store) :
    (s.clone).cell = s.cell ∧ (s.clone).lockDeref σ = s.lockDeref σ :=
  ⟨rfl, rfl⟩

/-- Claim C10: the width and height arguments of `set_icon_from_buffer` have
no influence on its result (including the enqueued `ChangeImage` event), and
the consumer always applies the fixed size `ICON_WIDTH × ICON_HEIGHT = 32 ×
32` to the installed image. -/
theorem c10_width_height_have_no_influence :
    (∀ (c : Channel) (buffer : List Nat) (w1 h1 w2 h2 : Nat),
        Window.set_icon_from_buffer c buffer w1 h1 =
          Window.set_icon_from_buffer c buffer w2 h2) ∧
    (∀ (s : TrayState) (img : List Nat),
        processEvent s (OsxSystemTrayEvent.ChangeImage img) =
          some { image := some img,
                 imageSize := some (ICON_WIDTH, ICON_HEIGHT),
                 log := s.log ++ [OsxSystemTrayEvent.ChangeImage img] }) ∧
    ICON_WIDTH = 32 ∧ ICON_HEIGHT = 32 :=
  ⟨fun _ _ _ _ _ _ => rfl, fun _ _ => rfl, rfl, rfl⟩

end Systray
